import Mathlib

/-!
Verification of the scoring protocol of `bevy_observed_utility`,
centred on the fixed-value scorer kind (`src/scoring/fixed.rs`).

The source file defines the `FixedScore` settings component, its
reaction handler (`FixedScore::observer`), and the idempotent
registration hook (`register_component_hooks`).  The surrounding crate
code (the `Score` value type, the `OnScore` event, the
`CommandsExt::once` guard) and the host entity-component substrate are
not part of the excerpt; where needed they are modelled from the spec,
each such definition says so in its doc comment.
-/

namespace BOU

/-- Modelled from the spec: the crate type `Score` (not in the excerpt) is a
value type wrapping a bounded scalar clamped to the interval from 0 to 1;
equality is value-based.  The scalar is modelled as a rational number. -/
structure Score where
  val : ℚ
  lower : 0 ≤ val
  upper : val ≤ 1

instance : DecidableEq Score := fun a b =>
  if h : a.val = b.val then
    isTrue (by cases a; cases b; cases h; rfl)
  else isFalse (fun hh => h (congrArg Score.val hh))

/-- Modelled from the spec: conversion of a numeric value into the Score
representation; the bounds of the Score type govern clamping at the
type-conversion boundary. -/
def Score.ofRat (q : ℚ) : Score :=
  ⟨min 1 (max 0 q), le_min (by norm_num) (le_max_left 0 q), min_le_left 1 _⟩

/-- Modelled from the spec: the read accessor `Score::get`. -/
def Score.get (s : Score) : ℚ := s.val

/-- Modelled from the spec: the default Score is the minimum. -/
def Score.scoreDefault : Score := ⟨0, le_refl 0, by norm_num⟩

/-- The `FixedScore` settings component (source lines 28 to 33): it holds the
fixed value to score, itself a `Score`. -/
structure FixedScore where
  value : Score
deriving DecidableEq

/-- Source: `FixedScore::new(value)` builds `Self { value: value.into() }`. -/
def FixedScore.new (v : ℚ) : FixedScore := ⟨Score.ofRat v⟩

/-- Source: `FixedScore::set_value(value)` performs
`self.value = value.into()`. -/
def FixedScore.set_value (self : FixedScore) (v : ℚ) : FixedScore :=
  { self with value := Score.ofRat v }

/-- Source: `#[derive(Default)]` on `FixedScore` defaults the single field,
so the default settings hold the default (minimum) Score. -/
def FixedScore.fixedDefault : FixedScore := ⟨Score.scoreDefault⟩

/-- Modelled from the spec: the scoring trigger `OnScore` is a stateless
event value carrying no payload. -/
structure OnScore where

/-- Modelled from the spec: a dispatched trigger, `Trigger<OnScore>` in the
source; its target is the identifying handle (here a natural number) of the
entity to rescore. -/
structure STrigger where
  event : OnScore
  target : ℕ

/-- Modelled from the spec: the host entity-component store, restricted to
what the excerpt touches.  Entities are natural numbers; each entity may
hold a Score component and a FixedScore settings component.
`markerPresent` records the process-wide `FixedScoreObserverSpawned`
resource, and `observerCount` how many times `FixedScore::observer` has
been installed into the dispatch machinery. -/
structure World where
  score : ℕ → Option Score
  fixed : ℕ → Option FixedScore
  markerPresent : Bool
  observerCount : ℕ

/-- The empty world: no entities, no marker, no installed observer. -/
def emptyWorld : World :=
  ⟨fun _ => none, fun _ => none, false, 0⟩

/-- Source: `FixedScore::observer` (lines 54 to 61).  It queries the pair
(mutable Score, FixedScore) for the target of the trigger; if the query
fails the entity is not scoring for fixed and the handler returns, else it
overwrites the Score with `settings.value()`. -/
def FixedScore.observer (t : STrigger) (w : World) : World :=
  match w.score t.target, w.fixed t.target with
  | some _, some settings =>
      { w with score := fun e => if e = t.target then some settings.value else w.score e }
  | _, _ => w

/-- Number of Score component writes one invocation of the handler performs
at the target of the trigger: 1 when the query succeeds, 0 otherwise. -/
def FixedScore.observerWrites (t : STrigger) (w : World) : ℕ :=
  match w.score t.target, w.fixed t.target with
  | some _, some _ => 1
  | _, _ => 0

/-- Source: the `on_add` component hook of `FixedScore`
(`register_component_hooks`, lines 68 to 78).  The body
`world.commands().once::<FixedScoreObserverSpawned>().observe(Self::observer)`
uses `CommandsExt::once`, which is crate code outside the excerpt; it is
modelled from the spec, section 4.4: if the process-wide marker is absent,
create it and install the handler; if present, no-op. -/
def FixedScore.onAdd (w : World) : World :=
  if w.markerPresent then w
  else { w with markerPresent := true, observerCount := w.observerCount + 1 }

/-- Raw component insertion for an entity: sets the two component slots of
entity `e`, without running any hook. -/
def insertRaw (e : ℕ) (fs : Option FixedScore) (sc : Option Score) (w : World) : World :=
  { w with
    score := fun x => if x = e then sc else w.score x,
    fixed := fun x => if x = e then fs else w.fixed x }

/-- Spawning (or reinserting components on) entity `e`.  Whenever a
FixedScore component is inserted, the `on_add` hook runs; the host runs it
on every insertion of the component. -/
def spawnWith (e : ℕ) (fs : Option FixedScore) (sc : Option Score) (w : World) : World :=
  match fs with
  | some _ => FixedScore.onAdd (insertRaw e fs sc w)
  | none => insertRaw e fs sc w

/-- Despawning entity `e` removes its components; the marker resource and
the installed observers are process-wide and are not removed. -/
def despawn (e : ℕ) (w : World) : World :=
  { w with
    score := fun x => if x = e then none else w.score x,
    fixed := fun x => if x = e then none else w.fixed x }

/-- External mutation of the FixedScore component held by entity `e`
(e.g. calling `set_value` through a mutable reference); no hook runs and
no recomputation is triggered. -/
def mutateFixed (e : ℕ) (f : FixedScore → FixedScore) (w : World) : World :=
  { w with fixed := fun x => if x = e then Option.map f (w.fixed x) else w.fixed x }

/-- Runs `n` installed copies of the handler on the trigger, in sequence. -/
def iterObserver (t : STrigger) : ℕ → World → World
  | 0, w => w
  | n + 1, w => iterObserver t n (FixedScore.observer t w)

/-- Total number of Score writes `n` installed copies of the handler
perform on the trigger. -/
def iterObserverWrites (t : STrigger) : ℕ → World → ℕ
  | 0, _ => 0
  | n + 1, w => FixedScore.observerWrites t w + iterObserverWrites t n (FixedScore.observer t w)

/-- Modelled from the spec: dispatching the scoring trigger at entity `e`
invokes every installed copy of the handler once. -/
def dispatch (e : ℕ) (w : World) : World :=
  iterObserver ⟨⟨⟩, e⟩ w.observerCount w

/-- Number of Score writes entity `e` receives from one dispatch. -/
def dispatchWrites (e : ℕ) (w : World) : ℕ :=
  iterObserverWrites ⟨⟨⟩, e⟩ w.observerCount w

/-- Dispatching the trigger at entity `e` repeatedly, `n` times. -/
def dispatchN (e : ℕ) : ℕ → World → World
  | 0, w => w
  | n + 1, w => dispatchN e n (dispatch e w)

/-- Spawns entities `0` to `n - 1`, each with the given FixedScore settings
and a default Score component. -/
def spawnMany (fs : FixedScore) : ℕ → World → World
  | 0, w => w
  | n + 1, w => spawnMany fs n (spawnWith n (some fs) (some Score.scoreDefault) w)

/-- An operation on the world, for quantifying over arbitrary lifetimes of
spawns, despawns, dispatches and external settings mutations. -/
inductive Op where
  | spawn (e : ℕ) (fs : Option FixedScore) (sc : Option Score)
  | despawnAt (e : ℕ)
  | dispatchAt (e : ℕ)
  | mutate (e : ℕ) (v : ℚ)

/-- Interpretation of one operation. -/
def applyOp : Op → World → World
  | Op.spawn e fs sc, w => spawnWith e fs sc w
  | Op.despawnAt e, w => despawn e w
  | Op.dispatchAt e, w => dispatch e w
  | Op.mutate e v, w => mutateFixed e (fun f => FixedScore.set_value f v) w

/-- Interpretation of a sequence of operations, first operation first. -/
def applyOps : List Op → World → World
  | [], w => w
  | o :: os, w => applyOps os (applyOp o w)

/-! Helper lemmas about the handler. -/

/-- Value-based equality of Score wrappers. -/
theorem Score.ext_val {a b : Score} (h : a.val = b.val) : a = b := by
  cases a
  cases b
  cases h
  rfl

theorem observer_fixed (t : STrigger) (w : World) :
    (FixedScore.observer t w).fixed = w.fixed := by
  unfold FixedScore.observer
  cases hs : w.score t.target <;> cases hf : w.fixed t.target <;> rfl

theorem observer_marker (t : STrigger) (w : World) :
    (FixedScore.observer t w).markerPresent = w.markerPresent := by
  unfold FixedScore.observer
  cases hs : w.score t.target <;> cases hf : w.fixed t.target <;> rfl

theorem observer_count (t : STrigger) (w : World) :
    (FixedScore.observer t w).observerCount = w.observerCount := by
  unfold FixedScore.observer
  cases hs : w.score t.target <;> cases hf : w.fixed t.target <;> rfl

theorem observer_score_other (t : STrigger) (w : World) (e : ℕ) (h : e ≠ t.target) :
    (FixedScore.observer t w).score e = w.score e := by
  unfold FixedScore.observer
  cases hs : w.score t.target <;> cases hf : w.fixed t.target <;> simp [h]

theorem observer_score_hit (t : STrigger) (w : World) (s : Score) (fs : FixedScore)
    (hs : w.score t.target = some s) (hf : w.fixed t.target = some fs) :
    (FixedScore.observer t w).score t.target = some fs.value := by
  unfold FixedScore.observer
  rw [hs, hf]
  simp

theorem observer_noop (t : STrigger) (w : World)
    (h : w.score t.target = none ∨ w.fixed t.target = none) :
    FixedScore.observer t w = w := by
  unfold FixedScore.observer
  cases hs : w.score t.target <;> cases hf : w.fixed t.target <;> simp_all

theorem observerWrites_hit (t : STrigger) (w : World) (s : Score) (fs : FixedScore)
    (hs : w.score t.target = some s) (hf : w.fixed t.target = some fs) :
    FixedScore.observerWrites t w = 1 := by
  unfold FixedScore.observerWrites
  rw [hs, hf]

/-! Helper lemmas about iterated handlers and dispatch. -/

theorem iterObserver_fixed (t : STrigger) (n : ℕ) (w : World) :
    (iterObserver t n w).fixed = w.fixed := by
  induction n generalizing w with
  | zero => rfl
  | succ n ih => rw [iterObserver, ih, observer_fixed]

theorem iterObserver_marker (t : STrigger) (n : ℕ) (w : World) :
    (iterObserver t n w).markerPresent = w.markerPresent := by
  induction n generalizing w with
  | zero => rfl
  | succ n ih => rw [iterObserver, ih, observer_marker]

theorem iterObserver_count (t : STrigger) (n : ℕ) (w : World) :
    (iterObserver t n w).observerCount = w.observerCount := by
  induction n generalizing w with
  | zero => rfl
  | succ n ih => rw [iterObserver, ih, observer_count]

theorem iterObserver_score_other (t : STrigger) (n : ℕ) (w : World) (e : ℕ)
    (h : e ≠ t.target) :
    (iterObserver t n w).score e = w.score e := by
  induction n generalizing w with
  | zero => rfl
  | succ n ih => rw [iterObserver, ih, observer_score_other t w e h]

theorem iterObserver_of_fixedpoint (t : STrigger) (n : ℕ) (w : World)
    (h : FixedScore.observer t w = w) :
    iterObserver t n w = w := by
  induction n with
  | zero => rfl
  | succ n ih => rw [iterObserver, h, ih]

theorem dispatch_fixed (e : ℕ) (w : World) : (dispatch e w).fixed = w.fixed :=
  iterObserver_fixed _ _ _

theorem dispatch_marker (e : ℕ) (w : World) :
    (dispatch e w).markerPresent = w.markerPresent :=
  iterObserver_marker _ _ _

theorem dispatch_count (e : ℕ) (w : World) :
    (dispatch e w).observerCount = w.observerCount :=
  iterObserver_count _ _ _

theorem dispatch_score_other (e : ℕ) (w : World) (x : ℕ) (h : x ≠ e) :
    (dispatch e w).score x = w.score x :=
  iterObserver_score_other _ _ _ _ h

theorem dispatch_eq_observer (e : ℕ) (w : World) (hc : w.observerCount = 1) :
    dispatch e w = FixedScore.observer ⟨⟨⟩, e⟩ w := by
  unfold dispatch
  rw [hc]
  rfl

theorem dispatch_score_self (e : ℕ) (w : World) (s : Score) (fs : FixedScore)
    (hc : w.observerCount = 1) (hs : w.score e = some s) (hf : w.fixed e = some fs) :
    (dispatch e w).score e = some fs.value := by
  rw [dispatch_eq_observer e w hc]
  exact observer_score_hit ⟨⟨⟩, e⟩ w s fs hs hf

theorem dispatch_noop (e : ℕ) (w : World)
    (h : w.score e = none ∨ w.fixed e = none) :
    dispatch e w = w :=
  iterObserver_of_fixedpoint _ _ _ (observer_noop ⟨⟨⟩, e⟩ w h)

theorem dispatchWrites_one (e : ℕ) (w : World) (s : Score) (fs : FixedScore)
    (hc : w.observerCount = 1) (hs : w.score e = some s) (hf : w.fixed e = some fs) :
    dispatchWrites e w = 1 := by
  unfold dispatchWrites
  rw [hc]
  show FixedScore.observerWrites ⟨⟨⟩, e⟩ w + iterObserverWrites ⟨⟨⟩, e⟩ 0 _ = 1
  rw [observerWrites_hit ⟨⟨⟩, e⟩ w s fs hs hf]
  rfl

/-! Helper lemmas about spawning and the registration guard. -/

theorem onAdd_score (w : World) : (FixedScore.onAdd w).score = w.score := by
  unfold FixedScore.onAdd
  split <;> rfl

theorem onAdd_fixed (w : World) : (FixedScore.onAdd w).fixed = w.fixed := by
  unfold FixedScore.onAdd
  split <;> rfl

theorem onAdd_of_marker (w : World) (h : w.markerPresent = true) :
    FixedScore.onAdd w = w := by
  unfold FixedScore.onAdd
  rw [h]
  rfl

theorem onAdd_of_no_marker (w : World) (h : w.markerPresent = false) :
    (FixedScore.onAdd w).markerPresent = true ∧
      (FixedScore.onAdd w).observerCount = w.observerCount + 1 := by
  unfold FixedScore.onAdd
  rw [h]
  exact ⟨rfl, rfl⟩

theorem onAdd_marker_true (w : World) : (FixedScore.onAdd w).markerPresent = true := by
  unfold FixedScore.onAdd
  cases h : w.markerPresent <;> simp [h]

theorem spawnWith_score (e : ℕ) (fs : Option FixedScore) (sc : Option Score)
    (w : World) (x : ℕ) :
    (spawnWith e fs sc w).score x = if x = e then sc else w.score x := by
  cases fs <;> simp [spawnWith, insertRaw, onAdd_score]

theorem spawnWith_fixed (e : ℕ) (fs : Option FixedScore) (sc : Option Score)
    (w : World) (x : ℕ) :
    (spawnWith e fs sc w).fixed x = if x = e then fs else w.fixed x := by
  cases fs <;> simp [spawnWith, insertRaw, onAdd_fixed]

theorem spawnWith_some_marker (e : ℕ) (f : FixedScore) (sc : Option Score) (w : World) :
    (spawnWith e (some f) sc w).markerPresent = true :=
  onAdd_marker_true _

theorem spawnWith_marker_mono (e : ℕ) (fs : Option FixedScore) (sc : Option Score)
    (w : World) (h : w.markerPresent = true) :
    (spawnWith e fs sc w).markerPresent = true ∧
      (spawnWith e fs sc w).observerCount = w.observerCount := by
  cases fs with
  | none => exact ⟨h, rfl⟩
  | some f =>
      have h2 : FixedScore.onAdd (insertRaw e (some f) sc w) = insertRaw e (some f) sc w :=
        onAdd_of_marker _ h
      show (FixedScore.onAdd (insertRaw e (some f) sc w)).markerPresent = true ∧
          (FixedScore.onAdd (insertRaw e (some f) sc w)).observerCount = w.observerCount
      rw [h2]
      exact ⟨h, rfl⟩

theorem spawnWith_count_first (e : ℕ) (f : FixedScore) (sc : Option Score)
    (w : World) (h : w.markerPresent = false) :
    (spawnWith e (some f) sc w).observerCount = w.observerCount + 1 := by
  show (FixedScore.onAdd (insertRaw e (some f) sc w)).observerCount = w.observerCount + 1
  exact (onAdd_of_no_marker (insertRaw e (some f) sc w) h).2

theorem spawnMany_marker_mono (fs : FixedScore) (n : ℕ) (w : World)
    (h : w.markerPresent = true) :
    (spawnMany fs n w).markerPresent = true ∧
      (spawnMany fs n w).observerCount = w.observerCount := by
  induction n generalizing w with
  | zero => exact ⟨h, rfl⟩
  | succ n ih =>
      rw [spawnMany]
      obtain ⟨h1, h2⟩ := spawnWith_marker_mono n (some fs) (some Score.scoreDefault) w h
      obtain ⟨h3, h4⟩ := ih _ h1
      exact ⟨h3, h4.trans h2⟩

theorem spawnMany_installed_once (fs : FixedScore) (n : ℕ) :
    (spawnMany fs (n + 1) emptyWorld).markerPresent = true ∧
      (spawnMany fs (n + 1) emptyWorld).observerCount = 1 := by
  rw [spawnMany]
  have h1 := spawnWith_some_marker n fs (some Score.scoreDefault) emptyWorld
  have h2 := spawnWith_count_first n fs (some Score.scoreDefault) emptyWorld rfl
  obtain ⟨h3, h4⟩ := spawnMany_marker_mono fs n _ h1
  exact ⟨h3, by rw [h4, h2]; rfl⟩

theorem spawnMany_frame (fs : FixedScore) (n : ℕ) (w : World) (i : ℕ) (h : n ≤ i) :
    (spawnMany fs n w).fixed i = w.fixed i ∧
      (spawnMany fs n w).score i = w.score i := by
  induction n generalizing w with
  | zero => exact ⟨rfl, rfl⟩
  | succ n ih =>
      rw [spawnMany]
      have hne : i ≠ n := by omega
      obtain ⟨h1, h2⟩ :=
        ih (spawnWith n (some fs) (some Score.scoreDefault) w) (by omega)
      constructor
      · rw [h1, spawnWith_fixed]
        simp [hne]
      · rw [h2, spawnWith_score]
        simp [hne]

theorem spawnMany_components (fs : FixedScore) (n : ℕ) (w : World) (i : ℕ) (h : i < n) :
    (spawnMany fs n w).fixed i = some fs ∧
      (spawnMany fs n w).score i = some Score.scoreDefault := by
  induction n generalizing w with
  | zero => exact absurd h (Nat.not_lt_zero i)
  | succ n ih =>
      rw [spawnMany]
      by_cases hi : i < n
      · exact ih _ hi
      · have hieq : i = n := by omega
        subst hieq
        obtain ⟨h1, h2⟩ :=
          spawnMany_frame fs i (spawnWith i (some fs) (some Score.scoreDefault) w) i (le_refl i)
        rw [h1, h2, spawnWith_fixed, spawnWith_score]
        simp

theorem applyOp_marker_mono (o : Op) (w : World) (h : w.markerPresent = true) :
    (applyOp o w).markerPresent = true ∧
      (applyOp o w).observerCount = w.observerCount := by
  cases o with
  | spawn e fs sc => exact spawnWith_marker_mono e fs sc w h
  | despawnAt e => exact ⟨h, rfl⟩
  | dispatchAt e => exact ⟨(dispatch_marker e w).trans h, dispatch_count e w⟩
  | mutate e v => exact ⟨h, rfl⟩

theorem applyOps_marker_mono (ops : List Op) (w : World) (h : w.markerPresent = true) :
    (applyOps ops w).markerPresent = true ∧
      (applyOps ops w).observerCount = w.observerCount := by
  induction ops generalizing w with
  | nil => exact ⟨h, rfl⟩
  | cons o os ih =>
      rw [applyOps]
      obtain ⟨h1, h2⟩ := applyOp_marker_mono o w h
      obtain ⟨h3, h4⟩ := ih _ h1
      exact ⟨h3, h4.trans h2⟩

theorem dispatchN_score (e : ℕ) (w : World) (s : Score) (fs : FixedScore) (n : ℕ)
    (hc : w.observerCount = 1) (hs : w.score e = some s) (hf : w.fixed e = some fs)
    (hn : 1 ≤ n) :
    (dispatchN e n w).score e = some fs.value := by
  induction n generalizing w s with
  | zero => omega
  | succ n ih =>
      rw [dispatchN]
      by_cases h0 : n = 0
      · subst h0
        show (dispatch e w).score e = some fs.value
        exact dispatch_score_self e w s fs hc hs hf
      · refine ih (dispatch e w) fs.value ?_ ?_ ?_ (by omega)
        · rw [dispatch_count]
          exact hc
        · exact dispatch_score_self e w s fs hc hs hf
        · rw [dispatch_fixed]
          exact hf

theorem mutateFixed_fixed_self (e : ℕ) (f : FixedScore → FixedScore) (w : World)
    (fs : FixedScore) (hf : w.fixed e = some fs) :
    (mutateFixed e f w).fixed e = some (f fs) := by
  show (if e = e then Option.map f (w.fixed e) else w.fixed e) = some (f fs)
  rw [if_pos rfl, hf]
  rfl

theorem dispatch_pair (w : World) (a b : ℕ) (hab : a ≠ b) (hc : w.observerCount = 1)
    (sa sb : Score) (fa fb : FixedScore)
    (hsa : w.score a = some sa) (hfa : w.fixed a = some fa)
    (hsb : w.score b = some sb) (hfb : w.fixed b = some fb) :
    ∀ w2, (w2 = dispatch b (dispatch a w) ∨ w2 = dispatch a (dispatch b w)) →
      w2.score a = some fa.value ∧ w2.score b = some fb.value := by
  have key : ∀ (x y : ℕ) (sx sy : Score) (fx fy : FixedScore), x ≠ y →
      w.score x = some sx → w.fixed x = some fx →
      w.score y = some sy → w.fixed y = some fy →
      (dispatch y (dispatch x w)).score x = some fx.value ∧
        (dispatch y (dispatch x w)).score y = some fy.value := by
    intro x y sx sy fx fy hxy hsx hfx hsy hfy
    have h1 : (dispatch x w).score x = some fx.value :=
      dispatch_score_self x w sx fx hc hsx hfx
    have hcount : (dispatch x w).observerCount = 1 := by
      rw [dispatch_count]
      exact hc
    have hsy2 : (dispatch x w).score y = some sy := by
      rw [dispatch_score_other x w y (Ne.symm hxy)]
      exact hsy
    have hfy2 : (dispatch x w).fixed y = some fy := by
      rw [dispatch_fixed]
      exact hfy
    constructor
    · rw [dispatch_score_other y (dispatch x w) x hxy]
      exact h1
    · exact dispatch_score_self y (dispatch x w) sy fy hcount hsy2 hfy2
  rintro w2 (rfl | rfl)
  · exact key a b sa sb fa fb hab hsa hfa hsb hfb
  · obtain ⟨h1, h2⟩ := key b a sb sa fb fa (Ne.symm hab) hsb hfb hsa hfa
    exact ⟨h2, h1⟩

/-! The claims. -/

/-- C1: spawning N at least 1 entities with FixedScore settings installs the
FixedScore handler into the dispatch machinery exactly once, and it stays
installed exactly once under any further sequence of spawns, despawns,
dispatches and settings mutations; a single dispatch at each of the N
entities writes that entity Score exactly once, never zero or multiple
times. -/
theorem C1_registration_exactly_once (fs : FixedScore) (N : ℕ) (hN : 1 ≤ N) :
    (spawnMany fs N emptyWorld).observerCount = 1 ∧
    (∀ ops : List Op, (applyOps ops (spawnMany fs N emptyWorld)).observerCount = 1) ∧
    (∀ i, i < N → dispatchWrites i (spawnMany fs N emptyWorld) = 1) := by
  obtain ⟨n, rfl⟩ : ∃ n, N = n + 1 := ⟨N - 1, by omega⟩
  obtain ⟨hm, hc⟩ := spawnMany_installed_once fs n
  refine ⟨hc, ?_, ?_⟩
  · intro ops
    obtain ⟨-, h2⟩ := applyOps_marker_mono ops _ hm
    exact h2.trans hc
  · intro i hi
    obtain ⟨hf, hs⟩ := spawnMany_components fs (n + 1) emptyWorld i hi
    exact dispatchWrites_one i _ _ fs hc hs hf

/-- Witness for C1 at N equal to 2. -/
theorem C1_registration_exactly_once_witness :
    (spawnMany (FixedScore.new (1/2)) 2 emptyWorld).observerCount = 1 ∧
    (applyOps [Op.despawnAt 0, Op.spawn 5 (some (FixedScore.new (1/2))) (some Score.scoreDefault)]
        (spawnMany (FixedScore.new (1/2)) 2 emptyWorld)).observerCount = 1 ∧
    dispatchWrites 1 (spawnMany (FixedScore.new (1/2)) 2 emptyWorld) = 1 := by
  obtain ⟨h1, h2, h3⟩ := C1_registration_exactly_once (FixedScore.new (1/2)) 2 (by decide)
  exact ⟨h1, h2 _, h3 1 (by decide)⟩

/-- C2: the handler overwrites the Score component of the targeted entity
with exactly the value stored in the settings; in particular an entity
spawned with FixedScore of one half and a default Score has Score one half
after one dispatch. -/
theorem C2_handler_copies_settings_value :
    (∀ (t : STrigger) (w : World) (s : Score) (fs : FixedScore),
        w.score t.target = some s → w.fixed t.target = some fs →
        (FixedScore.observer t w).score t.target = some fs.value) ∧
    ((dispatch 0 (spawnWith 0 (some (FixedScore.new (1/2))) (some Score.scoreDefault)
        emptyWorld)).score 0).map Score.get = some (1/2) := by
  refine ⟨observer_score_hit, ?_⟩
  have h := dispatch_score_self 0
    (spawnWith 0 (some (FixedScore.new (1/2))) (some Score.scoreDefault) emptyWorld)
    Score.scoreDefault (FixedScore.new (1/2)) rfl rfl rfl
  rw [h]
  norm_num [FixedScore.new, Score.ofRat, Score.get]

/-- Witness for C2, applying the handler property at a concrete world. -/
theorem C2_handler_copies_settings_value_witness :
    (FixedScore.observer ⟨⟨⟩, 0⟩
        (spawnWith 0 (some (FixedScore.new (3/4))) (some Score.scoreDefault) emptyWorld)).score 0 =
      some (FixedScore.new (3/4)).value :=
  C2_handler_copies_settings_value.1 ⟨⟨⟩, 0⟩
    (spawnWith 0 (some (FixedScore.new (3/4))) (some Score.scoreDefault) emptyWorld)
    Score.scoreDefault (FixedScore.new (3/4)) rfl rfl

/-- C3: when the targeted entity lacks the Score component or the
FixedScore settings component, the handler returns immediately and the
whole world, the Score included, is unchanged; dispatching at such an
entity is likewise a no-op. -/
theorem C3_missing_component_noop (t : STrigger) (w : World)
    (h : w.score t.target = none ∨ w.fixed t.target = none) :
    FixedScore.observer t w = w ∧ dispatch t.target w = w :=
  ⟨observer_noop t w h, dispatch_noop t.target w h⟩

/-- Witness for C3: an entity holding only a Score component. -/
theorem C3_missing_component_noop_witness :
    FixedScore.observer ⟨⟨⟩, 0⟩ (spawnWith 0 none (some Score.scoreDefault) emptyWorld) =
      spawnWith 0 none (some Score.scoreDefault) emptyWorld ∧
    dispatch 0 (spawnWith 0 none (some Score.scoreDefault) emptyWorld) =
      spawnWith 0 none (some Score.scoreDefault) emptyWorld :=
  C3_missing_component_noop ⟨⟨⟩, 0⟩
    (spawnWith 0 none (some Score.scoreDefault) emptyWorld) (Or.inr rfl)

/-- C4: dispatching the trigger any positive number of times at an entity
with unmodified settings always leaves the Score equal to the stored
setting; and, concretely, with settings three tenths one dispatch puts the
Score at three tenths, after which a set of the value to seven tenths
followed by another dispatch puts the Score at seven tenths. -/
theorem C4_idempotent_value_semantics :
    (∀ (e : ℕ) (w : World) (s : Score) (fs : FixedScore) (n : ℕ),
        w.observerCount = 1 → w.score e = some s → w.fixed e = some fs →
        1 ≤ n → (dispatchN e n w).score e = some fs.value) ∧
    ((dispatch 0 (spawnWith 0 (some (FixedScore.new (3/10))) (some Score.scoreDefault)
        emptyWorld)).score 0).map Score.get = some (3/10) ∧
    ((dispatch 0 (mutateFixed 0 (fun f => FixedScore.set_value f (7/10))
        (dispatch 0 (spawnWith 0 (some (FixedScore.new (3/10))) (some Score.scoreDefault)
          emptyWorld)))).score 0).map Score.get = some (7/10) := by
  refine ⟨fun e w s fs n hc hs hf hn => dispatchN_score e w s fs n hc hs hf hn, ?_, ?_⟩
  · have h := dispatch_score_self 0
      (spawnWith 0 (some (FixedScore.new (3/10))) (some Score.scoreDefault) emptyWorld)
      Score.scoreDefault (FixedScore.new (3/10)) rfl rfl rfl
    rw [h]
    norm_num [FixedScore.new, Score.ofRat, Score.get]
  · have h1 := dispatch_score_self 0
      (spawnWith 0 (some (FixedScore.new (3/10))) (some Score.scoreDefault) emptyWorld)
      Score.scoreDefault (FixedScore.new (3/10)) rfl rfl rfl
    have hf1 : (dispatch 0 (spawnWith 0 (some (FixedScore.new (3/10)))
        (some Score.scoreDefault) emptyWorld)).fixed 0 = some (FixedScore.new (3/10)) := by
      rw [dispatch_fixed]
      rfl
    have hf2 := mutateFixed_fixed_self 0 (fun f => FixedScore.set_value f (7/10))
      (dispatch 0 (spawnWith 0 (some (FixedScore.new (3/10))) (some Score.scoreDefault)
        emptyWorld)) (FixedScore.new (3/10)) hf1
    have hc2 : (mutateFixed 0 (fun f => FixedScore.set_value f (7/10))
        (dispatch 0 (spawnWith 0 (some (FixedScore.new (3/10))) (some Score.scoreDefault)
          emptyWorld))).observerCount = 1 := by
      show (dispatch 0 (spawnWith 0 (some (FixedScore.new (3/10))) (some Score.scoreDefault)
        emptyWorld)).observerCount = 1
      rw [dispatch_count]
      rfl
    have h2 := dispatch_score_self 0
      (mutateFixed 0 (fun f => FixedScore.set_value f (7/10))
        (dispatch 0 (spawnWith 0 (some (FixedScore.new (3/10))) (some Score.scoreDefault)
          emptyWorld)))
      (FixedScore.new (3/10)).value
      (FixedScore.set_value (FixedScore.new (3/10)) (7/10)) hc2 h1 hf2
    rw [h2]
    norm_num [FixedScore.new, FixedScore.set_value, Score.ofRat, Score.get]

/-- Witness for C4, applying the repeated-dispatch property three times at a
concrete world. -/
theorem C4_idempotent_value_semantics_witness :
    (dispatchN 0 3 (spawnWith 0 (some (FixedScore.new (3/10))) (some Score.scoreDefault)
        emptyWorld)).score 0 = some (FixedScore.new (3/10)).value :=
  C4_idempotent_value_semantics.1 0
    (spawnWith 0 (some (FixedScore.new (3/10))) (some Score.scoreDefault) emptyWorld)
    Score.scoreDefault (FixedScore.new (3/10)) 3 rfl rfl rfl (by decide)

/-- C5: set of the value replaces the stored value in place, leaves every
Score component of the world untouched, and the Score of the holding entity
catches up exactly when the next trigger is dispatched at it. -/
theorem C5_set_value_no_side_effect :
    (∀ (fs : FixedScore) (v : ℚ), (FixedScore.set_value fs v).value = Score.ofRat v) ∧
    (∀ (e : ℕ) (v : ℚ) (w : World),
        (mutateFixed e (fun f => FixedScore.set_value f v) w).score = w.score) ∧
    (∀ (e : ℕ) (v : ℚ) (w : World) (s : Score) (fs : FixedScore),
        w.observerCount = 1 → w.score e = some s → w.fixed e = some fs →
        (dispatch e (mutateFixed e (fun f => FixedScore.set_value f v) w)).score e =
          some (Score.ofRat v)) := by
  refine ⟨fun fs v => rfl, fun e v w => rfl, ?_⟩
  intro e v w s fs hc hs hf
  have hf2 := mutateFixed_fixed_self e (fun f => FixedScore.set_value f v) w fs hf
  exact dispatch_score_self e (mutateFixed e (fun f => FixedScore.set_value f v) w)
    s (FixedScore.set_value fs v) hc hs hf2

/-- Witness for C5 at a concrete world. -/
theorem C5_set_value_no_side_effect_witness :
    (dispatch 0 (mutateFixed 0 (fun f => FixedScore.set_value f (7/10))
        (spawnWith 0 (some (FixedScore.new (3/10))) (some Score.scoreDefault)
          emptyWorld))).score 0 = some (Score.ofRat (7/10)) :=
  C5_set_value_no_side_effect.2.2 0 (7/10)
    (spawnWith 0 (some (FixedScore.new (3/10))) (some Score.scoreDefault) emptyWorld)
    Score.scoreDefault (FixedScore.new (3/10)) rfl rfl rfl

/-- C6: the constructor stores exactly the conversion of its input into the
Score representation, the read accessor returns that stored Score
unchanged, and an out-of-range input such as 5 is accepted and bounded only
by the conversion of the Score type, which clamps it to 1. -/
theorem C6_new_stores_conversion :
    (∀ v : ℚ, (FixedScore.new v).value = Score.ofRat v) ∧
    (FixedScore.new 5).value = Score.ofRat 5 ∧
    (FixedScore.new 5).value.get = 1 ∧
    (FixedScore.new (-2)).value.get = 0 := by
  refine ⟨fun v => rfl, rfl, ?_, ?_⟩ <;>
    norm_num [FixedScore.new, Score.ofRat, Score.get]

/-- C7: two distinct entities spawned with settings one fifth and nine
tenths, in either spawn order, end with Scores one fifth and nine tenths
after the trigger is dispatched at both, in either dispatch order: each
entity result depends only on its own settings. -/
theorem C7_two_entities_independent (a b : ℕ) (hab : a ≠ b) (w w2 : World)
    (hw : w = spawnWith b (some (FixedScore.new (9/10))) (some Score.scoreDefault)
            (spawnWith a (some (FixedScore.new (1/5))) (some Score.scoreDefault) emptyWorld) ∨
          w = spawnWith a (some (FixedScore.new (1/5))) (some Score.scoreDefault)
            (spawnWith b (some (FixedScore.new (9/10))) (some Score.scoreDefault) emptyWorld))
    (hw2 : w2 = dispatch b (dispatch a w) ∨ w2 = dispatch a (dispatch b w)) :
    (w2.score a).map Score.get = some (1/5) ∧
      (w2.score b).map Score.get = some (9/10) := by
  have hcomp : w.score a = some Score.scoreDefault ∧
      w.fixed a = some (FixedScore.new (1/5)) ∧
      w.score b = some Score.scoreDefault ∧
      w.fixed b = some (FixedScore.new (9/10)) ∧
      w.observerCount = 1 := by
    rcases hw with rfl | rfl
    · refine ⟨?_, ?_, ?_, ?_, ?_⟩
      · rw [spawnWith_score, if_neg hab, spawnWith_score, if_pos rfl]
      · rw [spawnWith_fixed, if_neg hab, spawnWith_fixed, if_pos rfl]
      · rw [spawnWith_score, if_pos rfl]
      · rw [spawnWith_fixed, if_pos rfl]
      · have h1 := spawnWith_some_marker a (FixedScore.new (1/5))
          (some Score.scoreDefault) emptyWorld
        have h2 := (spawnWith_marker_mono b (some (FixedScore.new (9/10)))
          (some Score.scoreDefault) _ h1).2
        rw [h2, spawnWith_count_first a (FixedScore.new (1/5))
          (some Score.scoreDefault) emptyWorld rfl]
        rfl
    · refine ⟨?_, ?_, ?_, ?_, ?_⟩
      · rw [spawnWith_score, if_pos rfl]
      · rw [spawnWith_fixed, if_pos rfl]
      · rw [spawnWith_score, if_neg (Ne.symm hab), spawnWith_score, if_pos rfl]
      · rw [spawnWith_fixed, if_neg (Ne.symm hab), spawnWith_fixed, if_pos rfl]
      · have h1 := spawnWith_some_marker b (FixedScore.new (9/10))
          (some Score.scoreDefault) emptyWorld
        have h2 := (spawnWith_marker_mono a (some (FixedScore.new (1/5)))
          (some Score.scoreDefault) _ h1).2
        rw [h2, spawnWith_count_first b (FixedScore.new (9/10))
          (some Score.scoreDefault) emptyWorld rfl]
        rfl
  obtain ⟨hsa, hfa, hsb, hfb, hc⟩ := hcomp
  obtain ⟨ha, hb⟩ := dispatch_pair w a b hab hc Score.scoreDefault Score.scoreDefault
    (FixedScore.new (1/5)) (FixedScore.new (9/10)) hsa hfa hsb hfb w2 hw2
  rw [ha, hb]
  constructor <;> norm_num [FixedScore.new, Score.ofRat, Score.get]

/-- Witness for C7 at entities 0 and 1, first spawn order, first dispatch
order. -/
theorem C7_two_entities_independent_witness :
    ((dispatch 1 (dispatch 0
        (spawnWith 1 (some (FixedScore.new (9/10))) (some Score.scoreDefault)
          (spawnWith 0 (some (FixedScore.new (1/5))) (some Score.scoreDefault)
            emptyWorld)))).score 0).map Score.get = some (1/5) ∧
    ((dispatch 1 (dispatch 0
        (spawnWith 1 (some (FixedScore.new (9/10))) (some Score.scoreDefault)
          (spawnWith 0 (some (FixedScore.new (1/5))) (some Score.scoreDefault)
            emptyWorld)))).score 1).map Score.get = some (9/10) :=
  C7_two_entities_independent 0 1 (by decide)
    (spawnWith 1 (some (FixedScore.new (9/10))) (some Score.scoreDefault)
      (spawnWith 0 (some (FixedScore.new (1/5))) (some Score.scoreDefault) emptyWorld))
    (dispatch 1 (dispatch 0
      (spawnWith 1 (some (FixedScore.new (9/10))) (some Score.scoreDefault)
        (spawnWith 0 (some (FixedScore.new (1/5))) (some Score.scoreDefault) emptyWorld))))
    (Or.inl rfl) (Or.inl rfl)

/-- C8: a Score component is only mutated by the handler at the targeted
entity: spawning, despawning or dispatching at an entity never changes the
Score of any other entity, and the handler changes nothing besides the one
Score of its target, the settings components, the marker resource and the
installed count included. -/
theorem C8_score_mutation_frame (w : World) (e x : ℕ) (fs : Option FixedScore)
    (sc : Option Score) (t : STrigger) :
    (x ≠ e → (spawnWith e fs sc w).score x = w.score x) ∧
    (x ≠ e → (despawn e w).score x = w.score x) ∧
    (x ≠ e → (dispatch e w).score x = w.score x) ∧
    (x ≠ t.target → (FixedScore.observer t w).score x = w.score x) ∧
    (FixedScore.observer t w).fixed = w.fixed ∧
    (FixedScore.observer t w).markerPresent = w.markerPresent ∧
    (FixedScore.observer t w).observerCount = w.observerCount := by
  refine ⟨?_, ?_, fun h => dispatch_score_other e w x h,
    fun h => observer_score_other t w x h,
    observer_fixed t w, observer_marker t w, observer_count t w⟩
  · intro h
    rw [spawnWith_score, if_neg h]
  · intro h
    show (if x = e then none else w.score x) = w.score x
    rw [if_neg h]

/-- Witness for C8 at entity 3, which is not the entity 0 acted on. -/
theorem C8_score_mutation_frame_witness :
    (spawnWith 0 (some (FixedScore.new 1)) (some Score.scoreDefault)
        emptyWorld).score 3 = emptyWorld.score 3 ∧
    (despawn 0 emptyWorld).score 3 = emptyWorld.score 3 ∧
    (dispatch 0 emptyWorld).score 3 = emptyWorld.score 3 ∧
    (FixedScore.observer ⟨⟨⟩, 0⟩ emptyWorld).score 3 = emptyWorld.score 3 := by
  have h := C8_score_mutation_frame emptyWorld 0 3 (some (FixedScore.new 1))
    (some Score.scoreDefault) ⟨⟨⟩, 0⟩
  exact ⟨h.1 (by decide), h.2.1 (by decide), h.2.2.1 (by decide), h.2.2.2.1 (by decide)⟩

/-- C9: the on-add hook runs on every insertion of the settings component,
the guard is the process-wide marker alone: when the marker is absent the
hook creates it and installs one more handler, when present the hook is the
identity, and from any world where the marker exists no sequence of
operations removes it or changes the installed count. -/
theorem C9_guard_marker_only (w : World) (e : ℕ) (f : FixedScore) (sc : Option Score)
    (ops : List Op) :
    spawnWith e (some f) sc w = FixedScore.onAdd (insertRaw e (some f) sc w) ∧
    (w.markerPresent = true → FixedScore.onAdd w = w) ∧
    (w.markerPresent = false →
      (FixedScore.onAdd w).markerPresent = true ∧
      (FixedScore.onAdd w).observerCount = w.observerCount + 1) ∧
    (w.markerPresent = true →
      (applyOps ops w).markerPresent = true ∧
      (applyOps ops w).observerCount = w.observerCount) :=
  ⟨rfl, onAdd_of_marker w, onAdd_of_no_marker w, applyOps_marker_mono ops w⟩

/-- Witness for C9, applied to one world with the marker and one without. -/
theorem C9_guard_marker_only_witness :
    FixedScore.onAdd (spawnWith 0 (some (FixedScore.new 1)) none emptyWorld) =
      spawnWith 0 (some (FixedScore.new 1)) none emptyWorld ∧
    (FixedScore.onAdd emptyWorld).markerPresent = true ∧
    (FixedScore.onAdd emptyWorld).observerCount = emptyWorld.observerCount + 1 ∧
    (applyOps [Op.dispatchAt 0, Op.despawnAt 0]
        (spawnWith 0 (some (FixedScore.new 1)) none emptyWorld)).observerCount =
      (spawnWith 0 (some (FixedScore.new 1)) none emptyWorld).observerCount := by
  have hA := C9_guard_marker_only
    (spawnWith 0 (some (FixedScore.new 1)) none emptyWorld) 0 (FixedScore.new 1) none
    [Op.dispatchAt 0, Op.despawnAt 0]
  have hB := C9_guard_marker_only emptyWorld 0 (FixedScore.new 1) none []
  exact ⟨hA.2.1 rfl, (hB.2.2.1 rfl).1, (hB.2.2.1 rfl).2, (hA.2.2.2 rfl).2⟩

/-- C10: the default settings store the default Score, which is the minimum
Score value, so a dispatch at an entity spawned with default settings and
any Score puts its Score at the minimum; and equality of FixedScore
settings holds exactly when the stored Score values are equal. -/
theorem C10_default_and_equality :
    FixedScore.fixedDefault.value = Score.scoreDefault ∧
    (∀ s : Score, Score.scoreDefault.get ≤ s.get) ∧
    (∀ f g : FixedScore, f = g ↔ f.value = g.value) ∧
    (dispatch 0 (spawnWith 0 (some FixedScore.fixedDefault)
        (some (Score.ofRat (3/4))) emptyWorld)).score 0 = some Score.scoreDefault := by
  refine ⟨rfl, fun s => s.lower, ?_, ?_⟩
  · intro f g
    constructor
    · intro h
      rw [h]
    · intro h
      cases f
      cases g
      exact congrArg FixedScore.mk h
  · exact dispatch_score_self 0
      (spawnWith 0 (some FixedScore.fixedDefault) (some (Score.ofRat (3/4))) emptyWorld)
      (Score.ofRat (3/4)) FixedScore.fixedDefault rfl rfl rfl

end BOU
